import Mathlib

/-!
Verification of the ROHC library core against its natural-language
specification.  The definitions below are shallow embeddings of the C
sources: `ts_sc_comp.c` (Scaled RTP Timestamp encoder), `feedback.c`
(FEEDBACK-1/FEEDBACK-2 construction), `ip.c` (IP-agnostic packet model)
and `c_esp.c` (ESP compression profile).  Machine integers are modelled
as `Nat` with explicit reductions modulo 2^32 where C unsigned overflow
matters.  A handful of helpers whose C sources are not part of the tree
(`sdvl.c`, `crc.c`, the `feedback.h` constants) are modelled from the
specification text and marked as such in their doc comments.
-/

namespace Rohc

/-! ## Machine-integer helpers -/

/-- The modulus of `uint32_t` arithmetic. -/
def U32 : Nat := 4294967296

/-- `uint32_t` subtraction `a - b`: wrap-around modulo 2^32.  This is also
the value of the C expression `a == b` compares against when a signed
difference (such as `sn - old_sn` on two `uint16_t` operands) is converted
back to `uint32_t`. -/
def u32_sub (a b : Nat) : Nat := (a + (U32 - b % U32)) % U32

/-! ## Scaled RTP Timestamp encoder (`ts_sc_comp.c`) -/

/-- The three states of the Scaled RTP Timestamp encoder
(`ts_sc_state` in `ts_sc_comp.h`). -/
inductive ts_sc_state where
  | INIT_TS
  | INIT_STRIDE
  | SEND_SCALED
deriving DecidableEq, Repr

export ts_sc_state (INIT_TS INIT_STRIDE SEND_SCALED)

/-- The `struct ts_sc_comp` object of `ts_sc_comp.h`.  The W-LSB window
for TS_SCALED and the trace callback are omitted: `c_add_ts` never reads
or writes them. -/
structure ts_sc_comp where
  ts_stride : Nat
  ts_scaled : Nat
  ts_offset : Nat
  ts : Nat
  old_ts : Nat
  sn : Nat
  old_sn : Nat
  is_deducible : Bool
  state : ts_sc_state
  are_old_val_init : Bool
  nr_init_stride_packets : Nat
  ts_delta : Nat
deriving DecidableEq, Repr

/-- Modelled from the spec: `sdvl_can_value_be_encoded` of `sdvl.c` (the
file is not among the sources at hand; `ts_sc_comp.c` only calls it).
Spec section 4.1: SDVL encodes an unsigned integer on 1 to 4 bytes with
at most 29 value bits, and fails when the value exceeds 2^29 - 1. -/
def sdvl_can_value_be_encoded (value : Nat) : Bool :=
  value ≤ 2 ^ 29 - 1

/-- Shallow embedding of `c_add_ts` (`ts_sc_comp.c`, lines 105-299):
store the new TS/SN pair, compute the absolute TS delta and update the
encoder state.  The C `assert`s are compiled away (`NDEBUG` semantics);
the final `else` branch (`assert(0); return`) keeps the saved values and
is unreachable for the three-valued `ts_sc_state`. -/
def c_add_ts (ts_sc : ts_sc_comp) (ts : Nat) (sn : Nat) : ts_sc_comp :=
  -- lines 112-120: reset the deducible flag, save old values, store new ones
  let s0 : ts_sc_comp :=
    { ts_sc with is_deducible := false,
                 old_ts := ts_sc.ts, old_sn := ts_sc.sn,
                 ts := ts, sn := sn }
  -- lines 122-129: no old values yet
  if s0.are_old_val_init = false then
    { s0 with are_old_val_init := true }
  else
    -- lines 131-141: absolute delta between new and old TS
    let ts_delta : Nat := if ts ≥ s0.old_ts then ts - s0.old_ts else s0.old_ts - ts
    let s1 : ts_sc_comp := { s0 with ts_delta := ts_delta }
    -- lines 143-149: constant TS
    if ts_delta = 0 then { s1 with state := INIT_TS }
    -- lines 151-159: delta too large for SDVL
    else if sdvl_can_value_be_encoded ts_delta = false then { s1 with state := INIT_TS }
    else
      -- lines 161-167: leave INIT_TS
      let s2 : ts_sc_comp :=
        if s1.state = INIT_TS then
          { s1 with state := INIT_STRIDE, nr_init_stride_packets := 0 }
        else s1
      if s2.state = INIT_STRIDE then
        -- lines 169-194
        let s3 : ts_sc_comp :=
          if ts_delta ≠ s2.ts_stride ∨ (s2.ts % ts_delta) ≠ s2.ts_offset then
            { s2 with nr_init_stride_packets := 0 }
          else s2
        let off : Nat := s3.ts % ts_delta
        { s3 with ts_stride := ts_delta, ts_offset := off,
                  ts_scaled := (s3.ts - off) / ts_delta }
      else if s2.state = SEND_SCALED then
        -- lines 195-291
        let old_scaled := s2.ts_scaled
        let old_offset := s2.ts_offset
        -- lines 204-244: did TS_STRIDE change?
        let s3 : ts_sc_comp :=
          if ts_delta ≠ s2.ts_stride then
            if (ts_delta % s2.ts_stride) ≠ 0 then
              { s2 with state := INIT_STRIDE, nr_init_stride_packets := 0,
                        ts_stride := ts_delta }
            else if (ts_delta / s2.ts_stride) ≠ u32_sub s2.sn s2.old_sn then
              { s2 with state := INIT_STRIDE, nr_init_stride_packets := 0 }
            else s2
          else s2
        -- lines 247-257: recompute TS_OFFSET and TS_SCALED
        let off : Nat := s3.ts % s3.ts_stride
        let s4 : ts_sc_comp :=
          { s3 with ts_offset := off, ts_scaled := (s3.ts - off) / s3.ts_stride }
        -- lines 259-274: deducibility from SN
        let s5 : ts_sc_comp :=
          if s4.state = SEND_SCALED ∧
             u32_sub s4.ts_scaled old_scaled = u32_sub s4.sn s4.old_sn then
            { s4 with is_deducible := true }
          else
            { s4 with is_deducible := false }
        -- lines 276-290: wraparound (RFC 4815 section 4.4.3)
        if s5.ts < s5.old_ts then
          if old_offset ≠ s5.ts_offset then
            { s5 with state := INIT_STRIDE, nr_init_stride_packets := 0 }
          else s5
        else s5
      else s2

/-! ## Feedback construction (`feedback.c`) -/

/-- Modelled from the spec: the CRC feedback option type of `feedback.h`
(the header is not among the sources at hand).  Spec section 4.9:
"CRC (opt type 1, 1 byte)". -/
def OPT_TYPE_CRC : Nat := 1

/-- Modelled from the spec: the SN feedback option type of `feedback.h`
(the header is not among the sources at hand).  Spec section 4.9:
"SN (4, 1 byte each, zero or more)". -/
def OPT_TYPE_SN : Nat := 4

/-- Modelled from the spec: the capacity of the `d_feedback` data buffer
declared in `feedback.h` (not among the sources at hand), consistent with
the literal bound 30 that `f_append_cid` checks against. -/
def FEEDBACK_DATA_MAX_LEN : Nat := 30

/-- The `struct d_feedback` of `feedback.h`: feedback type, data buffer
and current size.  The buffer is modelled as a total byte memory indexed
by position. -/
structure d_feedback where
  type : Nat
  size : Nat
  data : Nat → Nat

/-- Write one byte into a feedback data buffer. -/
def writeByte (d : Nat → Nat) (i : Nat) (v : Nat) : Nat → Nat :=
  fun j => if j = i then v else d j

/-- The first `size` bytes of a feedback packet, in order: the bytes that
`f_wrap_feedback` would `memcpy` out of the structure. -/
def feedbackBytes (feedback : d_feedback) : List Nat :=
  (List.range feedback.size).map feedback.data

/-- Shallow embedding of `f_add_option` (`feedback.c`, lines 251-295):
append a TLV option to a FEEDBACK-2 packet.  The C `data` pointer is
modelled as `Option Nat` (`none` for `NULL`, `some b` for a one-byte
buffer, the only length the code accepts).  Returns the C `ROHC_OK` as
`true` and `ROHC_ERROR` as `false`, paired with the updated structure. -/
def f_add_option (feedback : d_feedback) (opt_type : Nat) (data : Option Nat)
    (data_len : Nat) : Bool × d_feedback :=
  -- lines 259-267: write the option header (type nibble, then length bit)
  let hdr0 := (opt_type &&& 0xf) <<< 4
  let hdr := if opt_type = OPT_TYPE_CRC ∨ data.isSome then hdr0 ||| 1 else hdr0
  let fb1 : d_feedback :=
    { feedback with data := writeByte feedback.data feedback.size hdr,
                    size := feedback.size + 1 }
  if opt_type = OPT_TYPE_CRC then
    -- lines 269-276: force a zero data byte for the CRC option
    (true, { fb1 with data := writeByte fb1.data fb1.size 0, size := fb1.size + 1 })
  else
    match data with
    | some b =>
        -- lines 277-287: copy the given data byte, checking the capacity
        if fb1.size + data_len > FEEDBACK_DATA_MAX_LEN then (false, fb1)
        else
          (true, { fb1 with data := writeByte fb1.data fb1.size b, size := fb1.size + 1 })
    | none => (true, fb1)

/-- Shallow embedding of `f_feedback2` (`feedback.c`, lines 77-238): build
a FEEDBACK-2 element for the given ack type, mode and 32-bit SN, storing
12, 20, 28 or 36 bits of SN depending on its magnitude. -/
def f_feedback2 (acktype mode : Nat) (sn : Nat) (feedback : d_feedback) :
    Bool × d_feedback :=
  -- lines 79-81
  let base := ((acktype &&& 0x3) <<< 6) ||| ((mode &&& 0x3) <<< 4)
  let fb0 : d_feedback := { feedback with type := 2, size := 2 }
  if sn < 1 <<< 12 then
    -- lines 87-96: SN on 12 bits
    (true, { fb0 with
      data := writeByte (writeByte fb0.data 0 (base ||| ((sn >>> 8) &&& 0xf)))
                1 (sn &&& 0xff) })
  else if sn < 1 <<< (12 + 8) then
    -- lines 97-127: SN on 20 bits, one SN option
    let fb1 : d_feedback := { fb0 with
      data := writeByte (writeByte fb0.data 0 (base ||| ((sn >>> 16) &&& 0xf)))
                1 ((sn >>> 8) &&& 0xff) }
    f_add_option fb1 OPT_TYPE_SN (some (sn &&& 0xff)) 1
  else if sn < 1 <<< (12 + 8 + 8) then
    -- lines 128-172: SN on 28 bits, two SN options
    let fb1 : d_feedback := { fb0 with
      data := writeByte (writeByte fb0.data 0 (base ||| ((sn >>> 24) &&& 0xf)))
                1 ((sn >>> 16) &&& 0xff) }
    match f_add_option fb1 OPT_TYPE_SN (some ((sn >>> 8) &&& 0xff)) 1 with
    | (false, fb2) => (false, fb2)
    | (true, fb2) => f_add_option fb2 OPT_TYPE_SN (some (sn &&& 0xff)) 1
  else
    -- lines 173-232: SN on 36 bits, three SN options
    let fb1 : d_feedback := { fb0 with
      data := writeByte (writeByte fb0.data 0 (base ||| 0))
                1 ((sn >>> 24) &&& 0xff) }
    match f_add_option fb1 OPT_TYPE_SN (some ((sn >>> 16) &&& 0xff)) 1 with
    | (false, fb2) => (false, fb2)
    | (true, fb2) =>
      match f_add_option fb2 OPT_TYPE_SN (some ((sn >>> 8) &&& 0xff)) 1 with
      | (false, fb3) => (false, fb3)
      | (true, fb3) => f_add_option fb3 OPT_TYPE_SN (some (sn &&& 0xff)) 1

/-- The CID type (`rohc_cid_type_t`). -/
inductive rohc_cid_type where
  | ROHC_SMALL_CID
  | ROHC_LARGE_CID
deriving DecidableEq, Repr

/-- Modelled from the spec: `c_bytesSdvl` of `sdvl.c` (not among the
sources at hand), called with length detection.  Spec section 4.1: SDVL
prefix codes hold 7, 14, 21 or 29 value bits on 1, 2, 3 or 4 bytes;
5 signals a value too large to encode. -/
def c_bytesSdvl (value : Nat) : Nat :=
  if value ≤ 127 then 1
  else if value ≤ 16383 then 2
  else if value ≤ 2097151 then 3
  else if value ≤ 536870911 then 4
  else 5

/-- Modelled from the spec: `c_encodeSdvl` of `sdvl.c` (not among the
sources at hand), with length detection.  Spec section 4.1 gives the
prefix codes `0xxxxxxx`, `10xxxxxx xxxxxxxx`, `110xxxxx (2 bytes)` and
`111xxxxx (3 bytes)`. -/
def c_encodeSdvl (value : Nat) : List Nat :=
  if value ≤ 127 then [value &&& 0x7f]
  else if value ≤ 16383 then [0x80 ||| ((value >>> 8) &&& 0x3f), value &&& 0xff]
  else if value ≤ 2097151 then
    [0xc0 ||| ((value >>> 16) &&& 0x1f), (value >>> 8) &&& 0xff, value &&& 0xff]
  else
    [0xe0 ||| ((value >>> 24) &&& 0x1f), (value >>> 16) &&& 0xff,
     (value >>> 8) &&& 0xff, value &&& 0xff]

/-- The byte-shifting loop of `f_append_cid`
(`for(i = size; i > 0; i--) data[i - 1 + k] = data[i - 1];`, with `k = 1`
for small CIDs and `k = largecidsize` for large ones), iterating from
`i` down to `1`. -/
def f_shift_data (d : Nat → Nat) (k : Nat) : Nat → (Nat → Nat)
  | 0 => d
  | i + 1 => f_shift_data (writeByte d (i + k) (d i)) k i

/-- Shallow embedding of `f_append_cid` (`feedback.c`, lines 306-405):
prepend the CID to the feedback packet.  The `malloc` of the temporary
SDVL buffer is modelled as always succeeding, and the dead
`c_encodeSdvl` failure check (the length was just detected) is dropped. -/
def f_append_cid (feedback : d_feedback) (cid : Nat) (cid_type : rohc_cid_type) :
    Bool × d_feedback :=
  match cid_type with
  | rohc_cid_type.ROHC_LARGE_CID =>
    -- lines 312-377
    let largecidsize := c_bytesSdvl cid
    if largecidsize = 0 ∨ largecidsize > 4 then (false, feedback)
    else if feedback.size + largecidsize > 30 then (false, feedback)
    else
      let shifted := f_shift_data feedback.data largecidsize feedback.size
      let acid := c_encodeSdvl cid
      (true, { feedback with
        data := fun j => if j < largecidsize then acid.getD j 0 else shifted j,
        size := feedback.size + largecidsize })
  | rohc_cid_type.ROHC_SMALL_CID =>
    -- lines 378-402
    if cid ≠ 0 then
      let shifted := f_shift_data feedback.data 1 feedback.size
      (true, { feedback with
        data := writeByte shifted 0 ((cid &&& 0xf) ||| 0xe0),
        size := feedback.size + 1 })
    else (true, feedback)

/-- Modelled from the spec: the initial value of the ROHC CRC-8
(`CRC_INIT_8` in `crc.h`, not among the sources at hand).  Spec section
6: init vector 0xFF. -/
def CRC_INIT_8 : Nat := 255

/-- Modelled from the spec: one shift step of the ROHC CRC-8 with
polynomial `0xE0` (spec section 6), processing bits least-significant
first as the table-driven `crc.c` does. -/
def crc8_shift (crc : Nat) : Nat :=
  if crc % 2 = 1 then (crc >>> 1) ^^^ 0xe0 else crc >>> 1

/-- Modelled from the spec: the ROHC CRC-8 table entry for one byte:
eight shift steps. -/
def crc8_byte (b : Nat) : Nat :=
  crc8_shift (crc8_shift (crc8_shift (crc8_shift
    (crc8_shift (crc8_shift (crc8_shift (crc8_shift b)))))))

/-- Modelled from the spec: `crc_calculate(ROHC_CRC_TYPE_8, buf, size,
init, table)` of `crc.c` (not among the sources at hand): byte-wise
table CRC, `crc = table[buf[i] ^ crc]`. -/
def crc_calculate_8 (buf : List Nat) (init_val : Nat) : Nat :=
  buf.foldl (fun crc b => crc8_byte ((b ^^^ crc) &&& 0xff)) init_val

/-- Shallow embedding of `f_wrap_feedback` (`feedback.c`, lines 422-480):
append the CID, optionally append a CRC option, copy the feedback bytes
out and patch the CRC into the last byte.  The returned pair is the C
`(feedback_packet, *final_size)` (with `none` for the `NULL` failure
returns) together with the updated `d_feedback` structure; the `malloc`
of the output packet is modelled as always succeeding. -/
def f_wrap_feedback (feedback : d_feedback) (cid : Nat) (cid_type : rohc_cid_type)
    (with_crc : Bool) : Option (List Nat × Nat) × d_feedback :=
  match f_append_cid feedback cid cid_type with
  | (false, fb) => (none, { fb with size := 0 })
  | (true, fb) =>
    let step2 : Bool × d_feedback :=
      if with_crc then f_add_option fb OPT_TYPE_CRC none 0 else (true, fb)
    match step2 with
    | (false, fb2) => (none, { fb2 with size := 0 })
    | (true, fb2) =>
      let pkt := feedbackBytes fb2
      let pkt2 := if with_crc then
          pkt.set (fb2.size - 1) (crc_calculate_8 pkt CRC_INIT_8 &&& 0xff)
        else pkt
      (some (pkt2, fb2.size), { fb2 with size := 0 })

/-! ## IP-agnostic packet model (`ip.c`) -/

/-- The IP version classification of `ip.h` (header not among the
sources; the enum constants are used throughout `ip.c`). -/
inductive ip_version where
  | IPV4
  | IPV6
  | IP_UNKNOWN
  | IPV4_MALFORMED
  | IPV6_MALFORMED
deriving DecidableEq, Repr

export ip_version (IPV4 IPV6 IP_UNKNOWN IPV4_MALFORMED IPV6_MALFORMED)

/-- IP protocol numbers from `ip_numbers.h`
(`ROHC_IPPROTO_HOPOPTS`). -/
def ROHC_IPPROTO_HOPOPTS : Nat := 0

/-- `ROHC_IPPROTO_IPIP` from `ip_numbers.h`. -/
def ROHC_IPPROTO_IPIP : Nat := 4

/-- `ROHC_IPPROTO_IPV6` from `ip_numbers.h`. -/
def ROHC_IPPROTO_IPV6 : Nat := 41

/-- `ROHC_IPPROTO_ROUTING` from `ip_numbers.h`. -/
def ROHC_IPPROTO_ROUTING : Nat := 43

/-- `ROHC_IPPROTO_ESP` from `ip_numbers.h`. -/
def ROHC_IPPROTO_ESP : Nat := 50

/-- `ROHC_IPPROTO_AH` from `ip_numbers.h`. -/
def ROHC_IPPROTO_AH : Nat := 51

/-- `ROHC_IPPROTO_DSTOPTS` from `ip_numbers.h`. -/
def ROHC_IPPROTO_DSTOPTS : Nat := 60

/-- Whether a next-header type is one of the four IPv6 extension headers
that `ip.c` walks (Hop-by-Hop, Destination, Routing, Authentication). -/
def is_ipv6_ext (t : Nat) : Bool :=
  t = ROHC_IPPROTO_HOPOPTS ∨ t = ROHC_IPPROTO_DSTOPTS ∨
  t = ROHC_IPPROTO_ROUTING ∨ t = ROHC_IPPROTO_AH

/-- The `struct ip_packet` of `ip.h`: classification, raw bytes and
declared size.  The copied `header` union is transparent here: the field
accessors read the same first bytes of `data` that the C `memcpy`
duplicated. -/
structure ip_packet where
  version : ip_version
  data : List Nat
  size : Nat
deriving DecidableEq, Repr

/-- Shallow embedding of `get_ip_version` (`ip.c`, lines 1090-1118):
fails on an empty buffer, otherwise classifies by the version nibble. -/
def get_ip_version (packet : List Nat) (size : Nat) : Option ip_version :=
  if size = 0 then none
  else some (
    if (packet.getD 0 0) >>> 4 &&& 0xf = 4 then IPV4
    else if (packet.getD 0 0) >>> 4 &&& 0xf = 6 then IPV6
    else IP_UNKNOWN)

/-- `ip_get_hdrlen` (`ip.c`, lines 466-486) for the IPv4 case:
`ihl * 4`, with `ihl` the low nibble of the first octet. -/
def ipv4_hdrlen (data : List Nat) : Nat := (data.getD 0 0 &&& 0xf) * 4

/-- The IPv4 Total Length field in host order (`rohc_ntoh16`). -/
def ipv4_tot_len (data : List Nat) : Nat := data.getD 2 0 * 256 + data.getD 3 0

/-- The IPv6 Payload Length field in host order (`rohc_ntoh16`). -/
def ipv6_plen (data : List Nat) : Nat := data.getD 4 0 * 256 + data.getD 5 0

/-- Shallow embedding of `ip_get_totlen` (`ip.c`, lines 436-454).  The C
result is accumulated in a `uint16_t`, so the IPv6 sum `40 + plen` and
the `IP_UNKNOWN` size are truncated modulo 2^16. -/
def ip_get_totlen (ip : ip_packet) : Nat :=
  if ip.version = IPV4 then ipv4_tot_len ip.data
  else if ip.version = IPV6 then (40 + ipv6_plen ip.data) % 65536
  else ip.size % 65536

/-- Shallow embedding of `ip_create` (`ip.c`, lines 46-148): classify the
buffer, validating the length fields, and always keep the raw data;
`none` (the C return 0) only on an empty buffer. -/
def ip_create (packet : List Nat) (size : Nat) : Option ip_packet :=
  match get_ip_version packet size with
  | none => none
  | some version =>
    if version = IPV4 then
      if size < 20 then some (ip_packet.mk IPV4_MALFORMED packet size)
      else if ipv4_hdrlen packet < 20 ∨ ipv4_hdrlen packet > size then
        some (ip_packet.mk IPV4_MALFORMED packet size)
      else if ipv4_tot_len packet ≠ size then
        some (ip_packet.mk IPV4_MALFORMED packet size)
      else some (ip_packet.mk IPV4 packet size)
    else if version = IPV6 then
      if size < 40 then some (ip_packet.mk IPV6_MALFORMED packet size)
      else if (40 + ipv6_plen packet) % 65536 ≠ size then
        some (ip_packet.mk IPV6_MALFORMED packet size)
      else some (ip_packet.mk IPV6 packet size)
    else some (ip_packet.mk IP_UNKNOWN packet size)

/-- The extension-walking loop of `ip_get_next_layer` (`ip.c`, lines
244-259).  Reads are checked: `none` means the C code dereferences a
byte beyond the end of the packet buffer (the loop itself performs no
bound check, see the `TODO` at line 247).  The fuel only bounds the
recursion; each step advances by at least 8 bytes, so
`data.length + 1` steps are never exhausted before an out-of-bounds
read occurs. -/
def ip_walk_exts (data : List Nat) (offset : Nat) (nh_type : Nat) :
    Nat → Option Nat
  | 0 => none
  | fuel + 1 =>
    if is_ipv6_ext nh_type then
      match data.get? offset, data.get? (offset + 1) with
      | some t, some len => ip_walk_exts data (offset + (len + 1) * 8) t fuel
      | _, _ => none
    else some offset

/-- Shallow embedding of `ip_get_next_header` (`ip.c`, lines 199-223)
reduced to the (type, offset) pair it produces: protocol byte and fixed
header size for IPv4/IPv6, `none` for the `assert(0)` branch. -/
def ip_get_next_header_info (ip : ip_packet) : Option (Nat × Nat) :=
  if ip.version = IPV4 then some (ip.data.getD 9 0, 20)
  else if ip.version = IPV6 then some (ip.data.getD 6 0, 40)
  else none

/-- Shallow embedding of `ip_get_next_layer` (`ip.c`, lines 235-262),
returning the byte offset of the next non-extension layer; `none` when
the C code would dereference beyond the packet buffer. -/
def ip_get_next_layer (ip : ip_packet) : Option Nat :=
  match ip_get_next_header_info ip with
  | none => none
  | some (t, off) =>
    if ip.version = IPV6 then ip_walk_exts ip.data off t (ip.data.length + 1)
    else some off

/-- Shallow embedding of `ip_get_next_ext_from_ext` (`ip.c`, lines
322-348).  The outer `Option` is `none` when the C code reads `ext[0]`
or `ext[1]` beyond the packet buffer; the inner `Option` is the C result
(`none` for the `NULL` "no more extension" return). -/
def ip_get_next_ext_from_ext (data : List Nat) (ext : Nat) :
    Option (Option Nat) :=
  match data.get? ext with
  | none => none
  | some t =>
    if is_ipv6_ext t then
      match data.get? (ext + 1) with
      | none => none
      | some len => some (some (ext + (len + 1) * 8))
    else some none

/-- The recursion of `ext_get_protocol` (`ip.c`, lines 606-631): follow
extensions until a non-extension type; both `ext[0]` and `ext[1]` are
read unconditionally.  `none` when a read falls outside the buffer (or
the fuel, always ample, runs out). -/
def ext_get_protocol (data : List Nat) (ext : Nat) : Nat → Option Nat
  | 0 => none
  | fuel + 1 =>
    match data.get? ext, data.get? (ext + 1) with
    | some t, some len =>
      if is_ipv6_ext t then ext_get_protocol data (ext + (len + 1) * 8) fuel
      else some t
    | _, _ => none

/-- Shallow embedding of `ip_get_protocol` (`ip.c`, lines 562-596):
protocol carried after the last known extension header; `none` when the
extension walk reads beyond the buffer. -/
def ip_get_protocol (ip : ip_packet) : Option Nat :=
  if ip.version = IPV4 then some (ip.data.getD 9 0)
  else if ip.version = IPV6 then
    let nh := ip.data.getD 6 0
    if is_ipv6_ext nh then ext_get_protocol ip.data 40 (ip.data.length + 1)
    else some nh
  else some 0

/-- The loop of `ip_get_total_extension_size` (`ip.c`, lines 374-388),
accumulating `(ext_length + 1) * 8` over the extension chain. -/
def ip_total_ext_size_loop (data : List Nat) (ext : Nat) (acc : Nat) :
    Nat → Option Nat
  | 0 => none
  | fuel + 1 =>
    match data.get? ext, data.get? (ext + 1) with
    | some t, some len =>
      let acc := acc + (len + 1) * 8
      match ip_get_next_ext_from_ext data ext with
      | none => none
      | some none => some acc
      | some (some nxt) =>
        if is_ipv6_ext t then ip_total_ext_size_loop data nxt acc fuel
        else some acc
    | _, _ => none

/-- Shallow embedding of `ip_get_total_extension_size` together with
`ip_get_next_ext_from_ip` (`ip.c`, lines 278-309 and 374-388). -/
def ip_get_total_extension_size (ip : ip_packet) : Option Nat :=
  if ip.version ≠ IPV6 then some 0
  else
    let nh := ip.data.getD 6 0
    if is_ipv6_ext nh then
      ip_total_ext_size_loop ip.data 40 0 (ip.data.length + 1)
    else some 0

/-- Shallow embedding of `ip_get_plen` (`ip.c`, lines 498-519): payload
length, an `unsigned int` difference (wrap-around modulo 2^32 kept). -/
def ip_get_plen (ip : ip_packet) : Option Nat :=
  if ip.version = IPV4 then
    some (u32_sub (ipv4_tot_len ip.data) (ipv4_hdrlen ip.data))
  else if ip.version = IPV6 then
    match ip_get_total_extension_size ip with
    | none => none
    | some ext => some (u32_sub (ipv6_plen ip.data) ext)
  else none

/-- Shallow embedding of `ip_get_inner_packet` (`ip.c`, lines 176-186).
The outer `Option` is `none` when the extension walks read beyond the
buffer; the inner `Option` is the C return value (`none` for failure of
the nested `ip_create`). -/
def ip_get_inner_packet (ip : ip_packet) : Option (Option ip_packet) :=
  match ip_get_next_layer ip with
  | none => none
  | some off =>
    match ip_get_plen ip with
    | none => none
    | some plen => some (ip_create (ip.data.drop off) plen)

/-! ## ESP compression profile (`c_esp.c`) -/

/-- The ROHC packet types that `c_esp_encode` distinguishes
(`rohc_packet_t` of `rohc_packets.h`, header not among the sources;
the type names follow the packet catalogue of spec section 4.7). -/
inductive rohc_packet_t where
  | PACKET_IR
  | PACKET_IR_DYN
  | PACKET_UO_0
  | PACKET_UO_1
  | PACKET_UOR_2
deriving DecidableEq, Repr

export rohc_packet_t (PACKET_IR PACKET_IR_DYN PACKET_UO_0 PACKET_UO_1 PACKET_UOR_2)

/-- The eight bytes of a `struct esphdr` (SPI then SN) as stored at the
given offset of a packet, the bytes `memcpy` would copy. -/
def esp_bytes_at (data : List Nat) (off : Nat) : List Nat :=
  (List.range 8).map (fun i => data.getD (off + i) 0)

/-- Shallow embedding of `c_esp_encode` (`c_esp.c`, lines 487-559).  The
call to `c_generic_encode` is not among the sources; it is abstracted by
its returned size `generic_ret` and the packet type it records in
`g_context->tmp.packet_type` (modelled from the spec, section 4.5: the
generic step chooses the packet type and never touches the
profile-specific part of the context).  The result is `none` when the
extension walks would read beyond the packet buffer (C undefined
behavior), and otherwise the pair of the C return value and the `old_esp`
bytes stored in the ESP part of the context after the call. -/
def c_esp_encode (old_esp : List Nat) (ip : ip_packet)
    (generic_ret : Int) (packet_type : rohc_packet_t) :
    Option (Int × List Nat) :=
  match ip_get_protocol ip with
  | none => none
  | some p0 =>
    -- lines 513-532: find the last IP header
    let last_q : Option (Option ip_packet) :=
      if p0 = ROHC_IPPROTO_IPIP ∨ p0 = ROHC_IPPROTO_IPV6 then
        ip_get_inner_packet ip
      else some (some ip)
    match last_q with
    | none => none
    | some none => some (-1, old_esp)
    | some (some last_ip_header) =>
      match (if p0 = ROHC_IPPROTO_IPIP ∨ p0 = ROHC_IPPROTO_IPV6 then
               ip_get_protocol last_ip_header
             else some p0) with
      | none => none
      | some ip_proto =>
        -- lines 534-539
        if ip_proto ≠ ROHC_IPPROTO_ESP then some (-1, old_esp)
        else
          -- line 540
          match ip_get_next_layer last_ip_header with
          | none => none
          | some esp_off =>
            let esp := esp_bytes_at last_ip_header.data esp_off
            -- lines 542-548
            if generic_ret < 0 then some (generic_ret, old_esp)
            -- lines 550-555
            else if packet_type = PACKET_IR ∨ packet_type = PACKET_IR_DYN then
              some (generic_ret, esp)
            else some (generic_ret, old_esp)


/-- The ESP header bytes that `c_esp_encode` locates (`c_esp.c`, lines
513-540), following the same walk: `some none` for the paths that return
-1 (no inner packet, transport not ESP), `none` for walks that read
beyond the buffer.  Used to state which bytes the IR/IR-DYN update
stores. -/
def esp_of_packet (ip : ip_packet) : Option (Option (List Nat)) :=
  match ip_get_protocol ip with
  | none => none
  | some p0 =>
    let last_q : Option (Option ip_packet) :=
      if p0 = ROHC_IPPROTO_IPIP ∨ p0 = ROHC_IPPROTO_IPV6 then
        ip_get_inner_packet ip
      else some (some ip)
    match last_q with
    | none => none
    | some none => some none
    | some (some last_ip_header) =>
      match (if p0 = ROHC_IPPROTO_IPIP ∨ p0 = ROHC_IPPROTO_IPV6 then
               ip_get_protocol last_ip_header
             else some p0) with
      | none => none
      | some ip_proto =>
        if ip_proto ≠ ROHC_IPPROTO_ESP then some none
        else
          match ip_get_next_layer last_ip_header with
          | none => none
          | some esp_off => some (some (esp_bytes_at last_ip_header.data esp_off))

/-! ### Helper lemmas about the SEND_SCALED branch of `c_add_ts` -/

/-- In SEND_SCALED, a delta that is not a multiple of the current stride
falls back to INIT_STRIDE, resets the counter and records the new stride. -/
theorem c_add_ts_stride_not_multiple (s : ts_sc_comp) (ts sn d : Nat)
    (hstate : s.state = SEND_SCALED) (hinit : s.are_old_val_init = true)
    (hd : d = if ts ≥ s.ts then ts - s.ts else s.ts - ts)
    (hd0 : d ≠ 0) (hsdvl : sdvl_can_value_be_encoded d = true)
    (hne : d ≠ s.ts_stride) (hmod : d % s.ts_stride ≠ 0) :
    (c_add_ts s ts sn).state = INIT_STRIDE ∧
    (c_add_ts s ts sn).nr_init_stride_packets = 0 ∧
    (c_add_ts s ts sn).ts_stride = d := by
  subst hd
  unfold c_add_ts
  simp only [hinit, hstate, Bool.true_eq_false, if_false, reduceIte, if_neg hd0, hsdvl,
    Bool.false_eq_true, reduceCtorEq, if_pos hne, if_pos hmod]
  split_ifs <;> exact ⟨rfl, rfl, rfl⟩

/-- In SEND_SCALED, a delta that is a multiple of the stride whose quotient
does not match the SN increment falls back to INIT_STRIDE, resets the
counter and keeps the stride. -/
theorem c_add_ts_stride_sn_mismatch (s : ts_sc_comp) (ts sn d : Nat)
    (hstate : s.state = SEND_SCALED) (hinit : s.are_old_val_init = true)
    (hd : d = if ts ≥ s.ts then ts - s.ts else s.ts - ts)
    (hd0 : d ≠ 0) (hsdvl : sdvl_can_value_be_encoded d = true)
    (hne : d ≠ s.ts_stride) (hmodz : d % s.ts_stride = 0)
    (hq : d / s.ts_stride ≠ u32_sub sn s.sn) :
    (c_add_ts s ts sn).state = INIT_STRIDE ∧
    (c_add_ts s ts sn).nr_init_stride_packets = 0 ∧
    (c_add_ts s ts sn).ts_stride = s.ts_stride := by
  subst hd
  unfold c_add_ts
  simp only [hinit, hstate, Bool.true_eq_false, if_false, reduceIte, if_neg hd0, hsdvl,
    Bool.false_eq_true, reduceCtorEq, if_pos hne, if_neg (not_not_intro hmodz), if_pos hq]
  split_ifs <;> exact ⟨rfl, rfl, rfl⟩

/-- In SEND_SCALED, when the stride checks pass (delta equal to the stride,
or a multiple of it matching the SN increment), the state only changes
through the wraparound check on TS_OFFSET. -/
theorem c_add_ts_stride_kept (s : ts_sc_comp) (ts sn d : Nat)
    (hstate : s.state = SEND_SCALED) (hinit : s.are_old_val_init = true)
    (hd : d = if ts ≥ s.ts then ts - s.ts else s.ts - ts)
    (hd0 : d ≠ 0) (hsdvl : sdvl_can_value_be_encoded d = true)
    (heq : d = s.ts_stride ∨ (d % s.ts_stride = 0 ∧ d / s.ts_stride = u32_sub sn s.sn)) :
    (ts < s.ts ∧ ts % s.ts_stride ≠ s.ts_offset →
       (c_add_ts s ts sn).state = INIT_STRIDE ∧
       (c_add_ts s ts sn).nr_init_stride_packets = 0) ∧
    ((ts ≥ s.ts ∨ ts % s.ts_stride = s.ts_offset) →
       (c_add_ts s ts sn).state = SEND_SCALED) := by
  subst hd
  unfold c_add_ts
  simp only [hinit, hstate, Bool.true_eq_false, if_false, reduceIte, if_neg hd0, hsdvl,
    Bool.false_eq_true, reduceCtorEq]
  rcases heq with heq | ⟨hmodz, hq⟩
  · simp only [if_neg (not_not_intro heq)]
    constructor
    · rintro ⟨hlt, hoff⟩
      split_ifs <;> simp_all <;> omega
    · rintro hor
      split_ifs <;> simp_all <;> omega
  · by_cases hne : (if ts ≥ s.ts then ts - s.ts else s.ts - ts) = s.ts_stride
    · simp only [if_neg (not_not_intro hne)]
      constructor
      · rintro ⟨hlt, hoff⟩
        split_ifs <;> simp_all <;> omega
      · rintro hor
        split_ifs <;> simp_all <;> omega
    · simp only [if_pos hne, if_neg (not_not_intro hmodz), if_neg (not_not_intro hq)]
      constructor
      · rintro ⟨hlt, hoff⟩
        split_ifs <;> simp_all <;> omega
      · rintro hor
        split_ifs <;> simp_all <;> omega

/-! ### Claim C1 -/

/-- C1, corrected.  The claim's second case ("delta is a multiple of
ts_stride but the quotient differs from the SN increment") only applies
when the delta moreover differs from `ts_stride`: when the delta equals
the stride, `c_add_ts` skips the quotient check entirely.  With that
correction, the SEND_SCALED behavior is: (a) delta differing from the
stride and not a multiple of it moves to INIT_STRIDE, resets the counter
and records the delta as the new stride; (b) delta differing from the
stride, a multiple of it, with quotient different from the SN increment
moves to INIT_STRIDE, resets the counter, stride unchanged; (c) otherwise,
on TS wraparound with a changed TS_OFFSET, moves to INIT_STRIDE and resets
the counter; (d) in all remaining cases stays in SEND_SCALED. -/
theorem c_add_ts_send_scaled_transitions (s : ts_sc_comp) (ts sn d : Nat)
    (hstate : s.state = SEND_SCALED) (hinit : s.are_old_val_init = true)
    (hstride : s.ts_stride ≠ 0)
    (hd : d = if ts ≥ s.ts then ts - s.ts else s.ts - ts)
    (hd0 : d ≠ 0) (hsdvl : sdvl_can_value_be_encoded d = true) :
    ((d ≠ s.ts_stride ∧ d % s.ts_stride ≠ 0) →
       (c_add_ts s ts sn).state = INIT_STRIDE ∧
       (c_add_ts s ts sn).nr_init_stride_packets = 0 ∧
       (c_add_ts s ts sn).ts_stride = d) ∧
    ((d ≠ s.ts_stride ∧ d % s.ts_stride = 0 ∧ d / s.ts_stride ≠ u32_sub sn s.sn) →
       (c_add_ts s ts sn).state = INIT_STRIDE ∧
       (c_add_ts s ts sn).nr_init_stride_packets = 0 ∧
       (c_add_ts s ts sn).ts_stride = s.ts_stride) ∧
    ((d = s.ts_stride ∨ (d % s.ts_stride = 0 ∧ d / s.ts_stride = u32_sub sn s.sn)) →
       (ts < s.ts ∧ ts % s.ts_stride ≠ s.ts_offset →
          (c_add_ts s ts sn).state = INIT_STRIDE ∧
          (c_add_ts s ts sn).nr_init_stride_packets = 0) ∧
       ((ts ≥ s.ts ∨ ts % s.ts_stride = s.ts_offset) →
          (c_add_ts s ts sn).state = SEND_SCALED)) :=
  ⟨fun h => c_add_ts_stride_not_multiple s ts sn d hstate hinit hd hd0 hsdvl h.1 h.2,
   fun h => c_add_ts_stride_sn_mismatch s ts sn d hstate hinit hd hd0 hsdvl h.1 h.2.1 h.2.2,
   fun h => c_add_ts_stride_kept s ts sn d hstate hinit hd hd0 hsdvl h⟩

/-- C1, counterexample to the claim as stated: in SEND_SCALED with stride
10, a delta of exactly 10 (one stride) together with an SN increment of 2
makes the quotient 10/10 = 1 differ from the SN increment, so the claim
requires a move to INIT_STRIDE; the code skips the quotient check when
the delta equals the stride and stays in SEND_SCALED. -/
theorem c_add_ts_send_scaled_counterexample :
    (ts_sc_comp.mk 10 10 0 100 90 5 4 false SEND_SCALED true 0 10).state = SEND_SCALED ∧
    (ts_sc_comp.mk 10 10 0 100 90 5 4 false SEND_SCALED true 0 10).are_old_val_init = true ∧
    (ts_sc_comp.mk 10 10 0 100 90 5 4 false SEND_SCALED true 0 10).ts_stride ≠ 0 ∧
    ((110 : Nat) ≥ 100 → (110 : Nat) - 100 = 10) ∧ (10 : Nat) ≠ 0 ∧
    sdvl_can_value_be_encoded 10 = true ∧
    (10 : Nat) % 10 = 0 ∧
    (10 : Nat) / 10 ≠ u32_sub 7 5 ∧
    (c_add_ts (ts_sc_comp.mk 10 10 0 100 90 5 4 false SEND_SCALED true 0 10) 110 7).state
      = SEND_SCALED := by
  decide

/-- Witness for `c_add_ts_send_scaled_transitions` at a concrete input:
stride 10, delta 15 (not a multiple), so the encoder re-initializes the
stride. -/
theorem c_add_ts_send_scaled_transitions_witness :
    (c_add_ts (ts_sc_comp.mk 10 10 0 100 90 5 4 false SEND_SCALED true 3 10) 115 6).state
        = INIT_STRIDE ∧
    (c_add_ts (ts_sc_comp.mk 10 10 0 100 90 5 4 false SEND_SCALED true 3 10) 115 6).nr_init_stride_packets = 0 ∧
    (c_add_ts (ts_sc_comp.mk 10 10 0 100 90 5 4 false SEND_SCALED true 3 10) 115 6).ts_stride = 15 :=
  (c_add_ts_send_scaled_transitions
      (ts_sc_comp.mk 10 10 0 100 90 5 4 false SEND_SCALED true 3 10) 115 6 15
      rfl rfl (by decide) (by decide) (by decide) (by decide)).1 (by decide)

/-! ### Claim C2 -/

set_option maxHeartbeats 1600000 in
/-- C2, corrected.  After a call to `c_add_ts` that ends in SEND_SCALED,
`is_deducible` is set exactly when the change of TS_SCALED equals the
change of SN (both as 32-bit differences).  The claim's second half is
wrong: a call that takes the SEND_SCALED branch, passes the stride checks
and computes a true deducibility flag can still be sent to INIT_STRIDE by
the subsequent wraparound check, which does not clear the flag.  So:
whenever `is_deducible` is set, the TS_SCALED change matches the SN
change, and the call either ended in SEND_SCALED or ended in INIT_STRIDE
through the wraparound check (TS decreased and TS_OFFSET changed) from a
SEND_SCALED state; in every other non-SEND_SCALED outcome the flag is
false. -/
theorem c_add_ts_deducible_characterization (s : ts_sc_comp) (ts sn : Nat)
    (hvalid : s.are_old_val_init = false → s.state = INIT_TS)
    (hstride : s.state = SEND_SCALED → s.ts_stride ≠ 0) :
    ((c_add_ts s ts sn).state = SEND_SCALED →
      ((c_add_ts s ts sn).is_deducible = true ↔
        u32_sub (c_add_ts s ts sn).ts_scaled s.ts_scaled = u32_sub sn s.sn)) ∧
    ((c_add_ts s ts sn).is_deducible = true →
      (u32_sub (c_add_ts s ts sn).ts_scaled s.ts_scaled = u32_sub sn s.sn ∧
       ((c_add_ts s ts sn).state = SEND_SCALED ∨
        ((c_add_ts s ts sn).state = INIT_STRIDE ∧ s.state = SEND_SCALED ∧
         ts < s.ts ∧ ts % s.ts_stride ≠ s.ts_offset)))) := by
  by_cases hinit : s.are_old_val_init = true
  · by_cases hd0 : (if ts ≥ s.ts then ts - s.ts else s.ts - ts) = 0
    · unfold c_add_ts
      simp only [hinit, Bool.true_eq_false, reduceIte, if_pos hd0]
      simp
    · by_cases hsdvl : sdvl_can_value_be_encoded (if ts ≥ s.ts then ts - s.ts else s.ts - ts) = true
      · rcases hstate : s.state with _ | _ | _
        · unfold c_add_ts
          simp only [hinit, hstate, Bool.true_eq_false, if_false, reduceIte, if_neg hd0,
            hsdvl, Bool.false_eq_true, reduceCtorEq]
          split_ifs <;> simp_all
        · unfold c_add_ts
          simp only [hinit, hstate, Bool.true_eq_false, if_false, reduceIte, if_neg hd0,
            hsdvl, Bool.false_eq_true, reduceCtorEq]
          split_ifs <;> simp_all
        · unfold c_add_ts
          simp only [hinit, hstate, Bool.true_eq_false, if_false, reduceIte, if_neg hd0,
            hsdvl, Bool.false_eq_true, reduceCtorEq]
          split_ifs <;> simp_all <;> omega
      · unfold c_add_ts
        simp only [Bool.not_eq_true] at hsdvl
        simp only [hinit, Bool.true_eq_false, reduceIte, if_neg hd0, hsdvl,
          Bool.false_eq_true]
        simp
  · have hinitf : s.are_old_val_init = false := by simpa using hinit
    have h0 : s.state = INIT_TS := hvalid hinitf
    unfold c_add_ts
    simp only [hinitf, reduceIte, h0]
    simp [h0]

/-- C2, counterexample to the claim as stated: starting from SEND_SCALED
with stride 10 and a stale TS_OFFSET of 5, the call `c_add_ts _ 80 12`
wraps TS around (80 < 100), passes the stride checks (delta 20 = 2
strides, SN increment 2), computes a true deducibility flag, and is then
sent to INIT_STRIDE by the wraparound offset check — ending in a
non-SEND_SCALED state with `is_deducible` still true. -/
theorem c_add_ts_deducible_counterexample :
    (c_add_ts (ts_sc_comp.mk 10 6 5 100 90 10 9 false SEND_SCALED true 0 0) 80 12).state
        = INIT_STRIDE ∧
    (c_add_ts (ts_sc_comp.mk 10 6 5 100 90 10 9 false SEND_SCALED true 0 0) 80 12).is_deducible
        = true := by
  decide

/-- Witness for `c_add_ts_deducible_characterization` at a concrete input:
a steady stride-160 flow where TS_SCALED and SN both advance by 1. -/
theorem c_add_ts_deducible_characterization_witness :
    ((c_add_ts (ts_sc_comp.mk 160 10 0 1600 1440 5 4 false SEND_SCALED true 0 160) 1760 6).state = SEND_SCALED →
      ((c_add_ts (ts_sc_comp.mk 160 10 0 1600 1440 5 4 false SEND_SCALED true 0 160) 1760 6).is_deducible = true ↔
        u32_sub (c_add_ts (ts_sc_comp.mk 160 10 0 1600 1440 5 4 false SEND_SCALED true 0 160) 1760 6).ts_scaled 10 = u32_sub 6 5)) ∧
    ((c_add_ts (ts_sc_comp.mk 160 10 0 1600 1440 5 4 false SEND_SCALED true 0 160) 1760 6).is_deducible = true →
      (u32_sub (c_add_ts (ts_sc_comp.mk 160 10 0 1600 1440 5 4 false SEND_SCALED true 0 160) 1760 6).ts_scaled 10 = u32_sub 6 5 ∧
       ((c_add_ts (ts_sc_comp.mk 160 10 0 1600 1440 5 4 false SEND_SCALED true 0 160) 1760 6).state = SEND_SCALED ∨
        ((c_add_ts (ts_sc_comp.mk 160 10 0 1600 1440 5 4 false SEND_SCALED true 0 160) 1760 6).state = INIT_STRIDE ∧
         (ts_sc_comp.mk 160 10 0 1600 1440 5 4 false (SEND_SCALED) true 0 160).state = SEND_SCALED ∧
         1760 < 1600 ∧ 1760 % 160 ≠ 0)))) := by
  have h := c_add_ts_deducible_characterization
    (ts_sc_comp.mk 160 10 0 1600 1440 5 4 false SEND_SCALED true 0 160) 1760 6
    (by decide) (by decide)
  exact h

/-! ### Claim C3 -/

set_option maxHeartbeats 800000 in
/-- C3, confirmed.  A call to `c_add_ts` ends in INIT_TS exactly when the
old TS/SN values were not yet initialized, or the absolute TS delta is
zero, or the delta cannot be SDVL-encoded; and a call starting in INIT_TS
for which none of these holds moves to INIT_STRIDE with the counter
reset.  The hypothesis `hvalid` is the code's own assertion (line 125 of
`ts_sc_comp.c`): uninitialized old values imply state INIT_TS. -/
theorem c_add_ts_init_ts_iff (s : ts_sc_comp) (ts sn d : Nat)
    (hvalid : s.are_old_val_init = false → s.state = INIT_TS)
    (hd : d = if ts ≥ s.ts then ts - s.ts else s.ts - ts) :
    ((c_add_ts s ts sn).state = INIT_TS ↔
       (s.are_old_val_init = false ∨ d = 0 ∨ sdvl_can_value_be_encoded d = false)) ∧
    (s.state = INIT_TS → s.are_old_val_init = true → d ≠ 0 →
       sdvl_can_value_be_encoded d = true →
       (c_add_ts s ts sn).state = INIT_STRIDE ∧
       (c_add_ts s ts sn).nr_init_stride_packets = 0) := by
  subst hd
  by_cases hinit : s.are_old_val_init = true
  · by_cases hd0 : (if ts ≥ s.ts then ts - s.ts else s.ts - ts) = 0
    · constructor
      · unfold c_add_ts
        simp only [hinit, Bool.true_eq_false, reduceIte, if_pos hd0, hd0]
        simp [hinit]
      · intro _ _ h3 _
        exact absurd hd0 h3
    · by_cases hsdvl : sdvl_can_value_be_encoded (if ts ≥ s.ts then ts - s.ts else s.ts - ts) = true
      · constructor
        · rcases hstate : s.state with _ | _ | _ <;>
          · unfold c_add_ts
            simp only [hinit, hstate, Bool.true_eq_false, if_false, reduceIte, if_neg hd0,
              hsdvl, Bool.false_eq_true, reduceCtorEq, hd0]
            split_ifs <;> simp_all
        · intro hst _ _ _
          unfold c_add_ts
          simp only [hinit, hst, Bool.true_eq_false, if_false, reduceIte, if_neg hd0,
            hsdvl, Bool.false_eq_true, reduceCtorEq]
          split_ifs <;> simp_all
      · constructor
        · unfold c_add_ts
          simp only [Bool.not_eq_true] at hsdvl
          simp only [hinit, Bool.true_eq_false, reduceIte, if_neg hd0, hsdvl,
            Bool.false_eq_true, hd0]
          simp [hsdvl, hd0, hinit]
        · intro _ _ _ h4
          simp only [Bool.not_eq_true] at hsdvl
          rw [hsdvl] at h4
          exact absurd h4 (by decide)
  · have hinitf : s.are_old_val_init = false := by simpa using hinit
    have h0 : s.state = INIT_TS := hvalid hinitf
    constructor
    · unfold c_add_ts
      simp only [hinitf, reduceIte, h0]
      simp [hinitf]
    · intro _ h2 _ _
      exact absurd h2 hinit

/-- Witness for `c_add_ts_init_ts_iff` at a concrete input: first packet
after initialization (INIT_TS, old values initialized, delta 160). -/
theorem c_add_ts_init_ts_iff_witness :
    ((c_add_ts (ts_sc_comp.mk 0 0 0 2000 0 1 0 false INIT_TS true 7 0) 2160 2).state = INIT_TS ↔
       ((ts_sc_comp.mk 0 0 0 2000 0 1 0 false INIT_TS true 7 0).are_old_val_init = false ∨
        (160 : Nat) = 0 ∨ sdvl_can_value_be_encoded 160 = false)) ∧
    ((ts_sc_comp.mk 0 0 0 2000 0 1 0 false INIT_TS true 7 0).state = INIT_TS →
       (ts_sc_comp.mk 0 0 0 2000 0 1 0 false INIT_TS true 7 0).are_old_val_init = true →
       (160 : Nat) ≠ 0 → sdvl_can_value_be_encoded 160 = true →
       (c_add_ts (ts_sc_comp.mk 0 0 0 2000 0 1 0 false INIT_TS true 7 0) 2160 2).state = INIT_STRIDE ∧
       (c_add_ts (ts_sc_comp.mk 0 0 0 2000 0 1 0 false INIT_TS true 7 0) 2160 2).nr_init_stride_packets = 0) :=
  c_add_ts_init_ts_iff (ts_sc_comp.mk 0 0 0 2000 0 1 0 false INIT_TS true 7 0) 2160 2 160
    (by decide) (by decide)

/-! ### Bit-arithmetic bridging lemmas -/

theorem and_three (x : Nat) : x &&& 3 = x % 4 := by
  have h := Nat.and_pow_two_sub_one_eq_mod x 2
  norm_num at h
  exact h

theorem and_fifteen (x : Nat) : x &&& 15 = x % 16 := by
  have h := Nat.and_pow_two_sub_one_eq_mod x 4
  norm_num at h
  exact h

theorem and_255 (x : Nat) : x &&& 255 = x % 256 := by
  have h := Nat.and_pow_two_sub_one_eq_mod x 8
  norm_num at h
  exact h

theorem shr_div (x k : Nat) : x >>> k = x / 2 ^ k := Nat.shiftRight_eq_div_pow x k

theorem shl12 : (1 : Nat) <<< 12 = 4096 := by norm_num [Nat.shiftLeft_eq]

theorem shl20 : (1 : Nat) <<< (12 + 8) = 1048576 := by norm_num [Nat.shiftLeft_eq]

theorem shl28 : (1 : Nat) <<< (12 + 8 + 8) = 268435456 := by norm_num [Nat.shiftLeft_eq]

/-- The first octet of a FEEDBACK-2 element assembles ack type, mode and
top SN bits by disjoint bit ranges, so the bit-ors act as sums. -/
theorem feedback2_first_octet (A M t : Nat) (hA : A < 4) (hM : M < 4) (ht : t < 16) :
    ((A <<< 6) ||| (M <<< 4)) ||| t = A * 64 + M * 16 + t := by
  interval_cases A <;> interval_cases M <;> interval_cases t <;> rfl

/-! ### Helper lemmas about the feedback buffer -/

/-- Pointwise description of the `f_append_cid` byte-shifting loop. -/
theorem f_shift_data_eval (k : Nat) : ∀ (i : Nat) (d : Nat → Nat) (j : Nat),
    f_shift_data d k i j = if k ≤ j ∧ j < i + k then d (j - k) else d j := by
  intro i
  induction i with
  | zero =>
    intro d j
    simp only [f_shift_data]
    split_ifs with h
    · omega
    · rfl
  | succ i ih =>
    intro d j
    simp only [f_shift_data]
    rw [ih]
    unfold writeByte
    split_ifs <;> first | rfl | omega | (congr 1; omega)

theorem feedbackBytes_length (fb : d_feedback) :
    (feedbackBytes fb).length = fb.size := by
  simp [feedbackBytes]

/-- Adding the CRC option appends the header byte `0x11` (type 1, length
bit set) and a zero data byte. -/
theorem f_add_option_crc_spec (fb : d_feedback) :
    f_add_option fb OPT_TYPE_CRC none 0 =
      (true, { fb with
        data := writeByte (writeByte fb.data fb.size 17) (fb.size + 1) 0,
        size := fb.size + 2 }) := by
  simp only [f_add_option]
  rw [show ((OPT_TYPE_CRC &&& 15) <<< 4 ||| 1 : Nat) = 17 from rfl]
  simp

theorem feedbackBytes_crc_option (fb : d_feedback) :
    feedbackBytes (f_add_option fb OPT_TYPE_CRC none 0).2 =
      feedbackBytes fb ++ [17, 0] := by
  rw [f_add_option_crc_spec]
  simp only [feedbackBytes]
  have h2 : fb.size + 2 = (fb.size + 1) + 1 := rfl
  rw [h2, List.range_succ, List.range_succ, List.map_append, List.map_append]
  simp only [List.map_cons, List.map_nil]
  rw [List.append_assoc]
  congr 1
  · apply List.map_congr_left
    intro a ha
    simp only [List.mem_range] at ha
    simp only [writeByte]
    rw [if_neg (by omega), if_neg (by omega)]
  · simp [writeByte]

theorem set_last_two (L : List Nat) (a b c : Nat) :
    (L ++ [a, b]).set (L.length + 1) c = L ++ [a, c] := by
  induction L with
  | nil => rfl
  | cons x xs ih => simp [List.set, ih]

/-! ### Claim C6 -/

/-- C6, confirmed.  Under the small-CID type, `f_append_cid` with a CID in
[1,15] prepends exactly one add-CID octet `0xE0 | cid`, shifting the
existing bytes right by one position unchanged and adding one to the
size; with CID 0 it leaves bytes and size unchanged; it succeeds in both
cases. -/
theorem f_append_cid_small_spec (fb : d_feedback) (cid : Nat)
    (hcid : cid ≤ 15) (hsize : 1 ≤ fb.size) :
    (f_append_cid fb cid rohc_cid_type.ROHC_SMALL_CID).1 = true ∧
    ((f_append_cid fb cid rohc_cid_type.ROHC_SMALL_CID).2.size =
       fb.size + if cid = 0 then 0 else 1) ∧
    feedbackBytes (f_append_cid fb cid rohc_cid_type.ROHC_SMALL_CID).2 =
      if cid = 0 then feedbackBytes fb else (0xe0 ||| cid) :: feedbackBytes fb := by
  by_cases h0 : cid = 0
  · simp [f_append_cid, h0]
  · rw [if_neg h0, if_neg h0]
    simp only [f_append_cid, ne_eq, h0, not_false_eq_true, if_true, reduceIte]
    refine ⟨trivial, trivial, ?_⟩
    have hbyte : (cid &&& 0xf) ||| 0xe0 = 0xe0 ||| cid := by
      rw [and_fifteen, Nat.mod_eq_of_lt (by omega), Nat.lor_comm]
    simp only [feedbackBytes, List.range_succ_eq_map, List.map_cons, List.map_map,
      List.cons.injEq]
    constructor
    · simp [writeByte, hbyte]
    · apply List.map_congr_left
      intro a ha
      simp only [List.mem_range] at ha
      simp only [Function.comp, writeByte, f_shift_data_eval]
      rw [if_neg (by omega : ¬ (a + 1 = 0)), if_pos (by omega : 1 ≤ a + 1 ∧ a + 1 < fb.size + 1)]
      simp

/-- Witness for `f_append_cid_small_spec` at a concrete input: a one-byte
feedback packet and CID 5. -/
theorem f_append_cid_small_spec_witness :
    (f_append_cid (d_feedback.mk 2 1 (fun _ => 42)) 5 rohc_cid_type.ROHC_SMALL_CID).1 = true ∧
    ((f_append_cid (d_feedback.mk 2 1 (fun _ => 42)) 5 rohc_cid_type.ROHC_SMALL_CID).2.size =
       1 + if (5 : Nat) = 0 then 0 else 1) ∧
    feedbackBytes (f_append_cid (d_feedback.mk 2 1 (fun _ => 42)) 5 rohc_cid_type.ROHC_SMALL_CID).2 =
      if (5 : Nat) = 0 then feedbackBytes (d_feedback.mk 2 1 (fun _ => 42))
      else (0xe0 ||| 5) :: feedbackBytes (d_feedback.mk 2 1 (fun _ => 42)) :=
  f_append_cid_small_spec (d_feedback.mk 2 1 (fun _ => 42)) 5 (by decide) (by decide)

/-! ### Claim C5 -/

/-- C5, confirmed.  With `with_crc` enabled and a successfully appended
CID, `f_wrap_feedback` returns a packet equal to the feedback bytes
followed by the CRC option: header octet `0x11` (type 1, length bit set)
and one data byte holding the CRC-8 (initial value 0xFF) of the whole
packet with that byte set to zero; the structure's size is reset to 0. -/
theorem f_wrap_feedback_crc_spec (fb : d_feedback) (cid : Nat) (ct : rohc_cid_type)
    (happend : (f_append_cid fb cid ct).1 = true) :
    (f_wrap_feedback fb cid ct true).1 =
      some (feedbackBytes (f_append_cid fb cid ct).2 ++
              [17, crc_calculate_8
                     (feedbackBytes (f_append_cid fb cid ct).2 ++ [17, 0])
                     CRC_INIT_8 &&& 255],
            (f_append_cid fb cid ct).2.size + 2) ∧
    (f_wrap_feedback fb cid ct true).2.size = 0 := by
  have h1 : f_append_cid fb cid ct = (true, (f_append_cid fb cid ct).2) := by
    rw [← happend]
  set fb1 := (f_append_cid fb cid ct).2 with hfb1
  have h2 := f_add_option_crc_spec fb1
  unfold f_wrap_feedback
  rw [h1]
  simp only [if_true, reduceIte, h2]
  have hbytes : feedbackBytes
      { fb1 with
        data := writeByte (writeByte fb1.data fb1.size 17) (fb1.size + 1) 0,
        size := fb1.size + 2 } = feedbackBytes fb1 ++ [17, 0] := by
    have h3 := feedbackBytes_crc_option fb1
    rw [f_add_option_crc_spec] at h3
    exact h3
  simp only [hbytes]
  constructor
  · have hlen : (feedbackBytes fb1).length = fb1.size := feedbackBytes_length fb1
    have hset : (feedbackBytes fb1 ++ [17, 0]).set (fb1.size + 2 - 1)
        (crc_calculate_8 (feedbackBytes fb1 ++ [17, 0]) CRC_INIT_8 &&& 255)
        = feedbackBytes fb1 ++
            [17, crc_calculate_8 (feedbackBytes fb1 ++ [17, 0]) CRC_INIT_8 &&& 255] := by
      have hidx : fb1.size + 2 - 1 = (feedbackBytes fb1).length + 1 := by omega
      rw [hidx, set_last_two]
    rw [hset]
  · trivial

/-- Witness for `f_wrap_feedback_crc_spec` at a concrete input: a
two-byte FEEDBACK-2 element with small CID 5. -/
theorem f_wrap_feedback_crc_spec_witness :
    (f_wrap_feedback (d_feedback.mk 2 2 (fun j => if j = 0 then 26 else 188)) 5
        rohc_cid_type.ROHC_SMALL_CID true).1 =
      some (feedbackBytes (f_append_cid (d_feedback.mk 2 2 (fun j => if j = 0 then 26 else 188)) 5
              rohc_cid_type.ROHC_SMALL_CID).2 ++
              [17, crc_calculate_8
                     (feedbackBytes (f_append_cid (d_feedback.mk 2 2 (fun j => if j = 0 then 26 else 188)) 5
                        rohc_cid_type.ROHC_SMALL_CID).2 ++ [17, 0])
                     CRC_INIT_8 &&& 255],
            (f_append_cid (d_feedback.mk 2 2 (fun j => if j = 0 then 26 else 188)) 5
              rohc_cid_type.ROHC_SMALL_CID).2.size + 2) ∧
    (f_wrap_feedback (d_feedback.mk 2 2 (fun j => if j = 0 then 26 else 188)) 5
        rohc_cid_type.ROHC_SMALL_CID true).2.size = 0 :=
  f_wrap_feedback_crc_spec (d_feedback.mk 2 2 (fun j => if j = 0 then 26 else 188)) 5
    rohc_cid_type.ROHC_SMALL_CID (by decide)


/-! ### Claim C4 -/

theorem f_feedback2_bytes_12 (acktype mode sn : Nat) (fb : d_feedback)
    (hsn : sn < 4096) :
    (f_feedback2 acktype mode sn fb).1 = true ∧
    feedbackBytes (f_feedback2 acktype mode sn fb).2 =
      [(acktype % 4) * 64 + (mode % 4) * 16 + sn / 256, sn % 256] := by
  have h12 : sn < 1 <<< 12 := by rw [shl12]; omega
  have e0 : ((acktype &&& 3) <<< 6) ||| ((mode &&& 3) <<< 4) ||| ((sn >>> 8) &&& 0xf)
      = (acktype % 4) * 64 + (mode % 4) * 16 + sn / 256 := by
    rw [and_three, and_three, and_fifteen, shr_div]
    norm_num
    rw [Nat.mod_eq_of_lt (by omega : sn / 256 < 16)]
    exact feedback2_first_octet _ _ _ (Nat.mod_lt _ (by norm_num))
      (Nat.mod_lt _ (by norm_num)) (by omega)
  simp only [f_feedback2, if_pos h12]
  refine ⟨trivial, ?_⟩
  simp only [feedbackBytes, List.range_succ, List.range_zero, List.map_append,
    List.map_cons, List.map_nil, List.nil_append]
  simp [writeByte, e0, and_255]

theorem f_feedback2_bytes_20 (acktype mode sn : Nat) (fb : d_feedback)
    (hlo : 4096 ≤ sn) (hsn : sn < 1048576) :
    (f_feedback2 acktype mode sn fb).1 = true ∧
    feedbackBytes (f_feedback2 acktype mode sn fb).2 =
      [(acktype % 4) * 64 + (mode % 4) * 16 + sn / 65536,
       sn / 256 % 256, 65, sn % 256] := by
  have h12 : ¬ sn < 1 <<< 12 := by rw [shl12]; omega
  have h20 : sn < 1 <<< (12 + 8) := by rw [shl20]; omega
  have e0 : ((acktype &&& 3) <<< 6) ||| ((mode &&& 3) <<< 4) ||| ((sn >>> 16) &&& 0xf)
      = (acktype % 4) * 64 + (mode % 4) * 16 + sn / 65536 := by
    rw [and_three, and_three, and_fifteen, shr_div]
    norm_num
    rw [Nat.mod_eq_of_lt (by omega : sn / 65536 < 16)]
    exact feedback2_first_octet _ _ _ (Nat.mod_lt _ (by norm_num))
      (Nat.mod_lt _ (by norm_num)) (by omega)
  simp only [f_feedback2, if_neg h12, if_pos h20]
  constructor
  · simp [f_add_option, OPT_TYPE_SN, OPT_TYPE_CRC, FEEDBACK_DATA_MAX_LEN]
  · simp only [f_add_option, OPT_TYPE_SN, OPT_TYPE_CRC, FEEDBACK_DATA_MAX_LEN]
    norm_num
    simp only [feedbackBytes, List.range_succ, List.range_zero, List.map_append,
      List.map_cons, List.map_nil, List.nil_append]
    simp only [writeByte]
    norm_num
    rw [e0, show ((4 &&& 15) <<< 4 ||| 1 : Nat) = 65 from rfl]
    simp [and_255, shr_div]

theorem f_feedback2_bytes_28 (acktype mode sn : Nat) (fb : d_feedback)
    (hlo : 1048576 ≤ sn) (hsn : sn < 268435456) :
    (f_feedback2 acktype mode sn fb).1 = true ∧
    feedbackBytes (f_feedback2 acktype mode sn fb).2 =
      [(acktype % 4) * 64 + (mode % 4) * 16 + sn / 16777216,
       sn / 65536 % 256, 65, sn / 256 % 256, 65, sn % 256] := by
  have h12 : ¬ sn < 1 <<< 12 := by rw [shl12]; omega
  have h20 : ¬ sn < 1 <<< (12 + 8) := by rw [shl20]; omega
  have h28 : sn < 1 <<< (12 + 8 + 8) := by rw [shl28]; omega
  have e0 : ((acktype &&& 3) <<< 6) ||| ((mode &&& 3) <<< 4) ||| ((sn >>> 24) &&& 0xf)
      = (acktype % 4) * 64 + (mode % 4) * 16 + sn / 16777216 := by
    rw [and_three, and_three, and_fifteen, shr_div]
    norm_num
    rw [Nat.mod_eq_of_lt (by omega : sn / 16777216 < 16)]
    exact feedback2_first_octet _ _ _ (Nat.mod_lt _ (by norm_num))
      (Nat.mod_lt _ (by norm_num)) (by omega)
  simp only [f_feedback2, if_neg h12, if_neg h20, if_pos h28]
  constructor
  · simp [f_add_option, OPT_TYPE_SN, OPT_TYPE_CRC, FEEDBACK_DATA_MAX_LEN]
  · simp only [f_add_option, OPT_TYPE_SN, OPT_TYPE_CRC, FEEDBACK_DATA_MAX_LEN]
    norm_num
    simp only [feedbackBytes, List.range_succ, List.range_zero, List.map_append,
      List.map_cons, List.map_nil, List.nil_append]
    simp only [writeByte]
    norm_num
    rw [e0, show ((4 &&& 15) <<< 4 ||| 1 : Nat) = 65 from rfl]
    simp [and_255, shr_div]

theorem f_feedback2_bytes_36 (acktype mode sn : Nat) (fb : d_feedback)
    (hlo : 268435456 ≤ sn) :
    (f_feedback2 acktype mode sn fb).1 = true ∧
    feedbackBytes (f_feedback2 acktype mode sn fb).2 =
      [(acktype % 4) * 64 + (mode % 4) * 16,
       sn / 16777216 % 256, 65, sn / 65536 % 256, 65, sn / 256 % 256, 65, sn % 256] := by
  have h12 : ¬ sn < 1 <<< 12 := by rw [shl12]; omega
  have h20 : ¬ sn < 1 <<< (12 + 8) := by rw [shl20]; omega
  have h28 : ¬ sn < 1 <<< (12 + 8 + 8) := by rw [shl28]; omega
  have e0 : ((acktype &&& 3) <<< 6) ||| ((mode &&& 3) <<< 4)
      = (acktype % 4) * 64 + (mode % 4) * 16 := by
    rw [and_three, and_three]
    have h := feedback2_first_octet (acktype % 4) (mode % 4) 0
      (Nat.mod_lt _ (by norm_num)) (Nat.mod_lt _ (by norm_num)) (by norm_num)
    rw [Nat.or_zero] at h
    simpa using h
  simp only [f_feedback2, if_neg h12, if_neg h20, if_neg h28]
  constructor
  · simp [f_add_option, OPT_TYPE_SN, OPT_TYPE_CRC, FEEDBACK_DATA_MAX_LEN]
  · simp only [f_add_option, OPT_TYPE_SN, OPT_TYPE_CRC, FEEDBACK_DATA_MAX_LEN]
    norm_num
    simp only [feedbackBytes, List.range_succ, List.range_zero, List.map_append,
      List.map_cons, List.map_nil, List.nil_append]
    simp only [writeByte]
    norm_num
    rw [e0, show ((4 &&& 15) <<< 4 ||| 1 : Nat) = 65 from rfl]
    simp [and_255, shr_div]

/-- C4, confirmed.  For every 32-bit SN, ack type and mode, `f_feedback2`
builds a FEEDBACK-2 element whose first octet packs the ack type, the
mode and the top 4 SN bits, whose second octet carries the next 8 SN
bits, followed by exactly 0, 1, 2 or 3 SN options (header `0x41`, one
data byte each) for SN below 2^12, 2^20, 2^28 or at least 2^28; the
big-endian concatenation of the 4 SN bits of the first octet, the second
octet and the SN option data bytes is the original SN, and the function
returns ROHC_OK. -/
theorem f_feedback2_spec (acktype mode sn : Nat) (fb : d_feedback)
    (hsn : sn < U32) :
    (f_feedback2 acktype mode sn fb).1 = true ∧
    (if sn < 4096 then
       feedbackBytes (f_feedback2 acktype mode sn fb).2 =
         [(acktype % 4) * 64 + (mode % 4) * 16 + sn / 256, sn % 256] ∧
       ((acktype % 4) * 64 + (mode % 4) * 16 + sn / 256) % 16 * 256 + sn % 256 = sn
     else if sn < 1048576 then
       feedbackBytes (f_feedback2 acktype mode sn fb).2 =
         [(acktype % 4) * 64 + (mode % 4) * 16 + sn / 65536,
          sn / 256 % 256, 65, sn % 256] ∧
       ((acktype % 4) * 64 + (mode % 4) * 16 + sn / 65536) % 16 * 65536 +
         (sn / 256 % 256) * 256 + sn % 256 = sn
     else if sn < 268435456 then
       feedbackBytes (f_feedback2 acktype mode sn fb).2 =
         [(acktype % 4) * 64 + (mode % 4) * 16 + sn / 16777216,
          sn / 65536 % 256, 65, sn / 256 % 256, 65, sn % 256] ∧
       ((acktype % 4) * 64 + (mode % 4) * 16 + sn / 16777216) % 16 * 16777216 +
         (sn / 65536 % 256) * 65536 + (sn / 256 % 256) * 256 + sn % 256 = sn
     else
       feedbackBytes (f_feedback2 acktype mode sn fb).2 =
         [(acktype % 4) * 64 + (mode % 4) * 16,
          sn / 16777216 % 256, 65, sn / 65536 % 256, 65, sn / 256 % 256, 65, sn % 256] ∧
       ((acktype % 4) * 64 + (mode % 4) * 16) % 16 * 4294967296 +
         (sn / 16777216 % 256) * 16777216 +
         (sn / 65536 % 256) * 65536 + (sn / 256 % 256) * 256 + sn % 256 = sn) := by
  have hU : U32 = 4294967296 := rfl
  rw [hU] at hsn
  by_cases h1 : sn < 4096
  · obtain ⟨ha, hb⟩ := f_feedback2_bytes_12 acktype mode sn fb h1
    rw [if_pos h1]
    exact ⟨ha, hb, by omega⟩
  · by_cases h2 : sn < 1048576
    · obtain ⟨ha, hb⟩ := f_feedback2_bytes_20 acktype mode sn fb (by omega) h2
      rw [if_neg h1, if_pos h2]
      exact ⟨ha, hb, by omega⟩
    · by_cases h3 : sn < 268435456
      · obtain ⟨ha, hb⟩ := f_feedback2_bytes_28 acktype mode sn fb (by omega) h3
        rw [if_neg h1, if_neg h2, if_pos h3]
        exact ⟨ha, hb, by omega⟩
      · obtain ⟨ha, hb⟩ := f_feedback2_bytes_36 acktype mode sn fb (by omega)
        rw [if_neg h1, if_neg h2, if_neg h3]
        exact ⟨ha, hb, by omega⟩

/-- Witness for `f_feedback2_spec` at a concrete input: SN 0xABCDE
(20-bit branch), ack type NACK (1), mode O (2). -/
theorem f_feedback2_spec_witness :
    (f_feedback2 1 2 703710 (d_feedback.mk 0 0 (fun _ => 0))).1 = true ∧
    (if (703710 : Nat) < 4096 then
       feedbackBytes (f_feedback2 1 2 703710 (d_feedback.mk 0 0 (fun _ => 0))).2 =
         [(1 % 4) * 64 + (2 % 4) * 16 + 703710 / 256, 703710 % 256] ∧
       ((1 % 4) * 64 + (2 % 4) * 16 + 703710 / 256) % 16 * 256 + 703710 % 256 = 703710
     else if (703710 : Nat) < 1048576 then
       feedbackBytes (f_feedback2 1 2 703710 (d_feedback.mk 0 0 (fun _ => 0))).2 =
         [(1 % 4) * 64 + (2 % 4) * 16 + 703710 / 65536,
          703710 / 256 % 256, 65, 703710 % 256] ∧
       ((1 % 4) * 64 + (2 % 4) * 16 + 703710 / 65536) % 16 * 65536 +
         (703710 / 256 % 256) * 256 + 703710 % 256 = 703710
     else if (703710 : Nat) < 268435456 then
       feedbackBytes (f_feedback2 1 2 703710 (d_feedback.mk 0 0 (fun _ => 0))).2 =
         [(1 % 4) * 64 + (2 % 4) * 16 + 703710 / 16777216,
          703710 / 65536 % 256, 65, 703710 / 256 % 256, 65, 703710 % 256] ∧
       ((1 % 4) * 64 + (2 % 4) * 16 + 703710 / 16777216) % 16 * 16777216 +
         (703710 / 65536 % 256) * 65536 + (703710 / 256 % 256) * 256 + 703710 % 256 = 703710
     else
       feedbackBytes (f_feedback2 1 2 703710 (d_feedback.mk 0 0 (fun _ => 0))).2 =
         [(1 % 4) * 64 + (2 % 4) * 16,
          703710 / 16777216 % 256, 65, 703710 / 65536 % 256, 65, 703710 / 256 % 256, 65,
          703710 % 256] ∧
       ((1 % 4) * 64 + (2 % 4) * 16) % 16 * 4294967296 +
         (703710 / 16777216 % 256) * 16777216 +
         (703710 / 65536 % 256) * 65536 + (703710 / 256 % 256) * 256 + 703710 % 256 = 703710) :=
  f_feedback2_spec 1 2 703710 (d_feedback.mk 0 0 (fun _ => 0)) (by decide)


/-! ### Claim C9 -/

/-- C9, confirmed.  `ip_create` returns failure exactly on an empty
buffer; for every non-empty buffer it succeeds, always stores the given
buffer and length, and classifies the packet: an IPv4 version nibble
gives IPV4 when the header and total lengths are consistent and
IPV4_MALFORMED otherwise; an IPv6 nibble gives IPV6 when the length is
consistent and IPV6_MALFORMED otherwise; any other nibble gives
IP_UNKNOWN. -/
theorem ip_create_spec (packet : List Nat) (size : Nat) :
    (ip_create packet size = none ↔ size = 0) ∧
    (∀ ip, ip_create packet size = some ip →
       ip.data = packet ∧ ip.size = size ∧
       ((packet.getD 0 0) >>> 4 &&& 0xf = 4 →
         ip.version = (if 20 ≤ size ∧ 20 ≤ ipv4_hdrlen packet ∧ ipv4_hdrlen packet ≤ size ∧
                          ipv4_tot_len packet = size
                       then IPV4 else IPV4_MALFORMED)) ∧
       ((packet.getD 0 0) >>> 4 &&& 0xf = 6 →
         ip.version = (if 40 ≤ size ∧ (40 + ipv6_plen packet) % 65536 = size
                       then IPV6 else IPV6_MALFORMED)) ∧
       ((packet.getD 0 0) >>> 4 &&& 0xf ≠ 4 → (packet.getD 0 0) >>> 4 &&& 0xf ≠ 6 →
         ip.version = IP_UNKNOWN)) := by
  by_cases hsz : size = 0
  · subst hsz
    simp [ip_create, get_ip_version]
  · constructor
    · simp only [ip_create, get_ip_version, hsz, if_false, reduceIte]
      split_ifs <;> simp
    · intro ip hip
      simp only [ip_create, get_ip_version, hsz, if_false, reduceIte] at hip
      by_cases h4 : (packet.getD 0 0) >>> 4 &&& 0xf = 4
      · simp only [h4, reduceIte, reduceCtorEq, if_true, if_false] at hip
        have hmk : ∀ v, ip = ip_packet.mk v packet size →
            ip.data = packet ∧ ip.size = size := by
          rintro v rfl; exact ⟨rfl, rfl⟩
        by_cases ha : size < 20
        · rw [if_pos ha] at hip
          injection hip with hip
          subst hip
          refine ⟨rfl, rfl, fun _ => ?_,
            fun h6x => absurd (h4.symm.trans h6x) (by decide), fun hn _ => absurd h4 hn⟩
          rw [if_neg (by omega)]
        · rw [if_neg ha] at hip
          by_cases hb : ipv4_hdrlen packet < 20 ∨ ipv4_hdrlen packet > size
          · rw [if_pos hb] at hip
            injection hip with hip
            subst hip
            refine ⟨rfl, rfl, fun _ => ?_,
              fun h6x => absurd (h4.symm.trans h6x) (by decide), fun hn _ => absurd h4 hn⟩
            rcases hb with hb | hb <;> rw [if_neg (by omega)]
          · rw [if_neg hb] at hip
            push_neg at hb
            by_cases hc : ipv4_tot_len packet ≠ size
            · rw [if_pos hc] at hip
              injection hip with hip
              subst hip
              refine ⟨rfl, rfl, fun _ => ?_,
                fun h6x => absurd (h4.symm.trans h6x) (by decide), fun hn _ => absurd h4 hn⟩
              rw [if_neg (by omega)]
            · rw [if_neg hc] at hip
              injection hip with hip
              subst hip
              push_neg at hc
              refine ⟨rfl, rfl, fun _ => ?_,
                fun h6x => absurd (h4.symm.trans h6x) (by decide), fun hn _ => absurd h4 hn⟩
              rw [if_pos (by omega)]
      · by_cases h6 : (packet.getD 0 0) >>> 4 &&& 0xf = 6
        · simp only [h4, h6, reduceIte, reduceCtorEq, if_true, if_false] at hip
          by_cases ha : size < 40
          · rw [if_pos ha] at hip
            injection hip with hip
            subst hip
            refine ⟨rfl, rfl, fun h4x => absurd (h6.symm.trans h4x) (by decide),
              fun _ => ?_, fun _ hn => absurd h6 hn⟩
            rw [if_neg (by omega)]
          · rw [if_neg ha] at hip
            by_cases hbe : (40 + ipv6_plen packet) % 65536 ≠ size
            · rw [if_pos hbe] at hip
              injection hip with hip
              subst hip
              refine ⟨rfl, rfl, fun h4x => absurd (h6.symm.trans h4x) (by decide),
                fun _ => ?_, fun _ hn => absurd h6 hn⟩
              rw [if_neg (by omega)]
            · rw [if_neg hbe] at hip
              injection hip with hip
              subst hip
              push_neg at hbe
              refine ⟨rfl, rfl, fun h4x => absurd (h6.symm.trans h4x) (by decide),
                fun _ => ?_, fun _ hn => absurd h6 hn⟩
              rw [if_pos (by omega)]
        · simp only [h4, h6, reduceIte, reduceCtorEq, if_false] at hip
          injection hip with hip
          subst hip
          exact ⟨rfl, rfl, fun h4x => absurd h4x h4, fun h6x => absurd h6x h6,
            fun _ _ => rfl⟩

/-- Witness for `ip_create_spec` at a concrete input: a 28-byte
IPv4/ESP packet. -/
theorem ip_create_spec_witness :
    (ip_packet.mk IPV4 [69,0,0,28,0,0,0,0,64,50,0,0,1,2,3,4,5,6,7,8,222,173,190,239,0,0,0,1] 28).data
        = [69,0,0,28,0,0,0,0,64,50,0,0,1,2,3,4,5,6,7,8,222,173,190,239,0,0,0,1] ∧
    (ip_packet.mk IPV4 [69,0,0,28,0,0,0,0,64,50,0,0,1,2,3,4,5,6,7,8,222,173,190,239,0,0,0,1] 28).size = 28 ∧
    (([69,0,0,28,0,0,0,0,64,50,0,0,1,2,3,4,5,6,7,8,222,173,190,239,0,0,0,1].getD 0 0) >>> 4 &&& 0xf = 4 →
      (ip_packet.mk IPV4 [69,0,0,28,0,0,0,0,64,50,0,0,1,2,3,4,5,6,7,8,222,173,190,239,0,0,0,1] 28).version =
        (if 20 ≤ 28 ∧ 20 ≤ ipv4_hdrlen [69,0,0,28,0,0,0,0,64,50,0,0,1,2,3,4,5,6,7,8,222,173,190,239,0,0,0,1] ∧
            ipv4_hdrlen [69,0,0,28,0,0,0,0,64,50,0,0,1,2,3,4,5,6,7,8,222,173,190,239,0,0,0,1] ≤ 28 ∧
            ipv4_tot_len [69,0,0,28,0,0,0,0,64,50,0,0,1,2,3,4,5,6,7,8,222,173,190,239,0,0,0,1] = 28
         then IPV4 else IPV4_MALFORMED)) ∧
    (([69,0,0,28,0,0,0,0,64,50,0,0,1,2,3,4,5,6,7,8,222,173,190,239,0,0,0,1].getD 0 0) >>> 4 &&& 0xf = 6 →
      (ip_packet.mk IPV4 [69,0,0,28,0,0,0,0,64,50,0,0,1,2,3,4,5,6,7,8,222,173,190,239,0,0,0,1] 28).version =
        (if 40 ≤ 28 ∧ (40 + ipv6_plen [69,0,0,28,0,0,0,0,64,50,0,0,1,2,3,4,5,6,7,8,222,173,190,239,0,0,0,1]) % 65536 = 28
         then IPV6 else IPV6_MALFORMED)) ∧
    (([69,0,0,28,0,0,0,0,64,50,0,0,1,2,3,4,5,6,7,8,222,173,190,239,0,0,0,1].getD 0 0) >>> 4 &&& 0xf ≠ 4 →
     ([69,0,0,28,0,0,0,0,64,50,0,0,1,2,3,4,5,6,7,8,222,173,190,239,0,0,0,1].getD 0 0) >>> 4 &&& 0xf ≠ 6 →
      (ip_packet.mk IPV4 [69,0,0,28,0,0,0,0,64,50,0,0,1,2,3,4,5,6,7,8,222,173,190,239,0,0,0,1] 28).version = IP_UNKNOWN) :=
  (ip_create_spec [69,0,0,28,0,0,0,0,64,50,0,0,1,2,3,4,5,6,7,8,222,173,190,239,0,0,0,1] 28).2
    (ip_packet.mk IPV4 [69,0,0,28,0,0,0,0,64,50,0,0,1,2,3,4,5,6,7,8,222,173,190,239,0,0,0,1] 28)
    (by decide)

/-! ### Claim C7 -/

/-- C7: the claim demands a bounds check that the code does not perform
(the `TODO: stop when IP total length is reached` comment at `ip.c` line
247 concedes the point).  On a well-formed 48-byte IPv6 packet whose
Hop-by-Hop extension names Hop-by-Hop again as its successor, the
extension walks of `ip_get_next_layer` and `ip_get_next_ext_from_ext`
dereference byte 48, one past the end of the buffer (`none` in this
model). -/
theorem ip_get_next_layer_out_of_bounds :
    ip_create ([96, 0, 0, 0, 0, 8, 0, 0] ++ List.replicate 40 0) 48 =
      some (ip_packet.mk IPV6 ([96, 0, 0, 0, 0, 8, 0, 0] ++ List.replicate 40 0) 48) ∧
    ip_get_next_layer
      (ip_packet.mk IPV6 ([96, 0, 0, 0, 0, 8, 0, 0] ++ List.replicate 40 0) 48) = none ∧
    ip_get_next_ext_from_ext ([96, 0, 0, 0, 0, 8, 0, 0] ++ List.replicate 40 0) 48 = none := by
  decide

/-! ### Claim C10 -/

/-- C10, confirmed.  Whenever `c_esp_encode` completes without undefined
behavior, the stored `old_esp` is left unchanged if the generic encoding
step failed or the chosen packet type is neither IR nor IR-DYN; and if
`old_esp` did change, the generic step succeeded, the packet type is IR
or IR-DYN, and the new value is exactly the ESP header located in the
packet. -/
theorem c_esp_encode_old_esp_frame (old_esp : List Nat) (ip : ip_packet)
    (generic_ret : Int) (packet_type : rohc_packet_t) (r : Int × List Nat)
    (h : c_esp_encode old_esp ip generic_ret packet_type = some r) :
    ((generic_ret < 0 ∨ (packet_type ≠ PACKET_IR ∧ packet_type ≠ PACKET_IR_DYN)) →
       r.2 = old_esp) ∧
    (r.2 ≠ old_esp →
       0 ≤ generic_ret ∧ (packet_type = PACKET_IR ∨ packet_type = PACKET_IR_DYN) ∧
       r.1 = generic_ret ∧ esp_of_packet ip = some (some r.2)) := by
  unfold c_esp_encode at h
  unfold esp_of_packet
  cases hp : ip_get_protocol ip with
  | none => rw [hp] at h; exact absurd h (by simp)
  | some p0 =>
    rw [hp] at h
    simp only at h ⊢
    by_cases hpp : p0 = ROHC_IPPROTO_IPIP ∨ p0 = ROHC_IPPROTO_IPV6
    · simp only [hpp, if_true, reduceIte] at h ⊢
      cases hin : ip_get_inner_packet ip with
      | none => rw [hin] at h; exact absurd h (by simp)
      | some inner =>
        rw [hin] at h
        cases inner with
        | none =>
          simp only [Option.some.injEq] at h
          subst h
          exact ⟨fun _ => rfl, fun hc => absurd rfl hc⟩
        | some last_ip =>
          simp only at h ⊢
          cases hp2 : ip_get_protocol last_ip with
          | none => rw [hp2] at h; exact absurd h (by simp)
          | some proto =>
            rw [hp2] at h
            simp only at h ⊢
            by_cases hesp : proto ≠ ROHC_IPPROTO_ESP
            · rw [if_pos hesp] at h
              simp only [Option.some.injEq] at h
              subst h
              exact ⟨fun _ => rfl, fun hc => absurd rfl hc⟩
            · rw [if_neg hesp] at h ⊢
              cases hnl : ip_get_next_layer last_ip with
              | none => rw [hnl] at h; exact absurd h (by simp)
              | some esp_off =>
                rw [hnl] at h
                simp only at h ⊢
                by_cases hg : generic_ret < 0
                · rw [if_pos hg] at h
                  simp only [Option.some.injEq] at h
                  subst h
                  exact ⟨fun _ => rfl, fun hc => absurd rfl hc⟩
                · rw [if_neg hg] at h
                  by_cases hpt : packet_type = PACKET_IR ∨ packet_type = PACKET_IR_DYN
                  · rw [if_pos hpt] at h
                    simp only [Option.some.injEq] at h
                    subst h
                    refine ⟨fun hx => ?_, fun _ => ⟨by omega, hpt, rfl, rfl⟩⟩
                    rcases hx with hx | hx
                    · omega
                    · rcases hpt with hpt | hpt
                      · exact absurd hpt hx.1
                      · exact absurd hpt hx.2
                  · rw [if_neg hpt] at h
                    simp only [Option.some.injEq] at h
                    subst h
                    exact ⟨fun _ => rfl, fun hc => absurd rfl hc⟩
    · simp only [hpp, if_false, reduceIte] at h ⊢
      by_cases hesp : p0 ≠ ROHC_IPPROTO_ESP
      · rw [if_pos hesp] at h
        simp only [Option.some.injEq] at h
        subst h
        exact ⟨fun _ => rfl, fun hc => absurd rfl hc⟩
      · rw [if_neg hesp] at h ⊢
        cases hnl : ip_get_next_layer ip with
        | none => rw [hnl] at h; exact absurd h (by simp)
        | some esp_off =>
          rw [hnl] at h
          simp only at h ⊢
          by_cases hg : generic_ret < 0
          · rw [if_pos hg] at h
            simp only [Option.some.injEq] at h
            subst h
            exact ⟨fun _ => rfl, fun hc => absurd rfl hc⟩
          · rw [if_neg hg] at h
            by_cases hpt : packet_type = PACKET_IR ∨ packet_type = PACKET_IR_DYN
            · rw [if_pos hpt] at h
              simp only [Option.some.injEq] at h
              subst h
              refine ⟨fun hx => ?_, fun _ => ⟨by omega, hpt, rfl, rfl⟩⟩
              rcases hx with hx | hx
              · omega
              · rcases hpt with hpt | hpt
                · exact absurd hpt hx.1
                · exact absurd hpt hx.2
            · rw [if_neg hpt] at h
              simp only [Option.some.injEq] at h
              subst h
              exact ⟨fun _ => rfl, fun hc => absurd rfl hc⟩

/-- Witness for `c_esp_encode_old_esp_frame` at a concrete input: an
IPv4/ESP packet encoded as UO-0, which leaves `old_esp` untouched. -/
theorem c_esp_encode_old_esp_frame_witness :
    ((5 : Int) < 0 ∨ (PACKET_UO_0 ≠ PACKET_IR ∧ PACKET_UO_0 ≠ PACKET_IR_DYN) →
       ((5 : Int), [0,0,0,0,0,0,0,0]).2 = [0,0,0,0,0,0,0,0]) ∧
    (((5 : Int), ([0,0,0,0,0,0,0,0] : List Nat)).2 ≠ [0,0,0,0,0,0,0,0] →
       (0 : Int) ≤ 5 ∧ (PACKET_UO_0 = PACKET_IR ∨ PACKET_UO_0 = PACKET_IR_DYN) ∧
       ((5 : Int), ([0,0,0,0,0,0,0,0] : List Nat)).1 = 5 ∧
       esp_of_packet (ip_packet.mk IPV4
         [69,0,0,28,0,0,0,0,64,50,0,0,1,2,3,4,5,6,7,8,222,173,190,239,0,0,0,1] 28) =
           some (some ((5 : Int), ([0,0,0,0,0,0,0,0] : List Nat)).2)) :=
  c_esp_encode_old_esp_frame [0,0,0,0,0,0,0,0]
    (ip_packet.mk IPV4 [69,0,0,28,0,0,0,0,64,50,0,0,1,2,3,4,5,6,7,8,222,173,190,239,0,0,0,1] 28)
    5 PACKET_UO_0 (5, [0,0,0,0,0,0,0,0]) (by decide)

end Rohc
